import Mathlib

/-!
Shallow embedding of the `Throttled` request-response behaviour from
`src/protocols/request-response/src/throttled.rs` (mriise/rust-libp2p).

The behaviour wraps an inner request-response behaviour and enforces per-peer
send/receive budgets via an in-band credit-grant protocol.  We model:

* `Limit`, `PeerInfo`, `Credit` exactly as in the source;
* the engine state `ThrottledState` with the peer budget table, the offline
  peer cache, limit overrides, the pending event queue, the in-flight credit
  map and the credit-id counter;
* the inner behaviour as an observational log: calls to
  `RequestResponse::send_request` / `send_response` append to `inner_log`,
  and the inner `RequestId` mint is a counter (`next_request_id`);
* machine integers as `Nat` with explicit `% 2^16` / `% 2^64` where the
  source's `u16` / `u64` arithmetic can wrap (`send_budget += credit`,
  `credit_id += 1`);
* the codec's `Message` / `Header` container (module `codec`, not part of the
  sources at hand) is modelled from the spec, see `Header` below.

`PeerId` and `RequestId` are opaque in the source (equality/keys only); we
use `Nat`.  Maps are total functions `Nat → Option _`; the LRU aspect of the
offline cache (recency, eviction at 8192) is not touched by any operation we
verify and is not modelled.
-/

namespace Throttle

/-- Peer identifiers are opaque keys in the source; modelled as `Nat`. -/
abbrev PeerId := Nat

/-- Inner request identifiers, opaque in the source; modelled as `Nat`. -/
abbrev RequestId := Nat

/-- Modelled from the spec: the message type tag of the framing codec's
header, `Type ∈ {Request, Response, Credit, Ack}` (the codec module is not
among the sources at hand). -/
inductive MsgType where
  | request
  | response
  | credit
  | ack
deriving DecidableEq, Repr

/-- Modelled from the spec: the framing codec's header
`{ typ : Type, ident : Option u64, credit : Option u16 }`. -/
structure Header where
  typ : Option MsgType
  ident : Option Nat
  credit : Option Nat
deriving DecidableEq, Repr

/-- Modelled from the spec: a framed message: header plus optional
application payload (`Credit` and `Ack` carry no payload). -/
structure Message (A : Type) where
  header : Header
  data : Option A
deriving DecidableEq, Repr

namespace Message

/-- `Message::request`: a framed application request. -/
def request {A : Type} (a : A) : Message A :=
  { header := { typ := some .request, ident := none, credit := none }, data := some a }

/-- `Message::response`: a framed application response. -/
def response {A : Type} (a : A) : Message A :=
  { header := { typ := some .response, ident := none, credit := none }, data := some a }

/-- `Message::credit(credit, ident)`: a credit grant, no payload. -/
def credit (A : Type) (amount ident : Nat) : Message A :=
  { header := { typ := some .credit, ident := some ident, credit := some amount }, data := none }

/-- `Message::ack(ident)`: an acknowledgement, no payload. -/
def ack (A : Type) (ident : Nat) : Message A :=
  { header := { typ := some .ack, ident := some ident, credit := none }, data := none }

end Message

/-- `Limit`: current (`max_recv`) and next (`next_max`) receive limits.
The source stores `NonZeroU16`; we carry plain `Nat` values (the relevant
operations never depend on the positivity invariant). -/
structure Limit where
  max_recv : Nat
  next_max : Nat
deriving DecidableEq, Repr

namespace Limit

/-- `Limit::new(max)`: start with `max_recv = 1`, advertising `max` only
after the first (always-allowed) request has been answered. -/
def new (max : Nat) : Limit :=
  { max_recv := 1, next_max := max }

/-- `Limit::set(next)`: install the limit to activate at the next switch. -/
def set (l : Limit) (next : Nat) : Limit :=
  { l with next_max := next }

/-- `Limit::switch()`: copy `next_max` into `max_recv` and return it. -/
def switch (l : Limit) : Nat × Limit :=
  let l' := { l with max_recv := l.next_max }
  (l'.max_recv, l')

end Limit

/-- `PeerInfo`: budgets and limit for one peer. -/
structure PeerInfo where
  limit : Limit
  send_budget : Nat
  recv_budget : Nat
  send_budget_id : Option Nat
deriving DecidableEq, Repr

/-- `PeerInfo::new(limit)`: budgets start at 1, no credit id seen. -/
def PeerInfo.new (limit : Limit) : PeerInfo :=
  { limit := limit, send_budget := 1, recv_budget := 1, send_budget_id := none }

/-- `Credit`: an in-flight credit grant record. -/
structure Credit where
  id : Nat
  request : RequestId
  amount : Nat
deriving DecidableEq, Repr

/-- A response channel: in the source a `ResponseChannel` exposes the peer
and the request id. -/
structure RespChannel where
  peer : PeerId
  request_id : RequestId
deriving DecidableEq, Repr

/-- The events surfaced by `Throttled::poll` (variant payloads reduced to
what the verified claims inspect). -/
inductive TEvent (Req Res : Type) where
  | msgRequest (peer : PeerId) (request_id : RequestId) (req : Req) (chan : RespChannel)
  | msgResponse (peer : PeerId) (request_id : RequestId) (res : Res)
  | outboundFailure (peer : PeerId) (request_id : RequestId) (error : Nat)
  | inboundFailure (peer : PeerId) (request_id : RequestId) (error : Nat)
  | tooManyInboundRequests (peer : PeerId)
  | resumeSending (peer : PeerId)
deriving DecidableEq, Repr

/-- An observational record of a call into the inner behaviour:
`RequestResponse::send_request` or `RequestResponse::send_response`. -/
inductive InnerOut (Req Res : Type) where
  | request (peer : PeerId) (request_id : RequestId) (msg : Message Req)
  | response (chan : RespChannel) (msg : Message Res)
deriving DecidableEq, Repr

/-- The state of a `Throttled` instance, plus the observational log of the
inner behaviour (`inner_log`, `next_request_id`) and of the ids minted by
`next_credit_id` via `send_credit` (`minted`). -/
structure ThrottledState (Req Res : Type) where
  peer_info : PeerId → Option PeerInfo
  offline_peer_info : PeerId → Option PeerInfo
  default_limit : Limit
  limit_overrides : PeerId → Option Limit
  events : List (TEvent Req Res)
  credit_messages : PeerId → Option Credit
  credit_id : Nat
  next_request_id : RequestId
  inner_log : List (InnerOut Req Res)
  minted : List Nat

variable {Req Res : Type}

/-- `Throttled::from(behaviour)`: the initial state. -/
def ThrottledState.init (Req Res : Type) : ThrottledState Req Res :=
  { peer_info := fun _ => none
    offline_peer_info := fun _ => none
    default_limit := Limit.new 1
    limit_overrides := fun _ => none
    events := []
    credit_messages := fun _ => none
    credit_id := 0
    next_request_id := 0
    inner_log := []
    minted := [] }

/-- Pointwise map update. -/
def upd {α : Type} (m : PeerId → Option α) (p : PeerId) (v : Option α) :
    PeerId → Option α :=
  fun q => if q = p then v else m q

/-- Inner `send_request`: mint a `RequestId` and log the submission. -/
def innerSendRequest (s : ThrottledState Req Res) (p : PeerId) (m : Message Req) :
    ThrottledState Req Res × RequestId :=
  let rid := s.next_request_id
  ({ s with
      next_request_id := rid + 1
      inner_log := s.inner_log ++ [.request p rid m] }, rid)

/-- Inner `send_response`: log the submission on the channel. -/
def innerSendResponse (s : ThrottledState Req Res) (ch : RespChannel) (m : Message Res) :
    ThrottledState Req Res :=
  { s with inner_log := s.inner_log ++ [.response ch m] }

/-- `Throttled::send_credit(p, amount)`: mint a credit id (u64, wrapping),
submit the grant as an inner request, and record it in `credit_messages`,
replacing any prior entry for that peer. -/
def sendCredit (s : ThrottledState Req Res) (p : PeerId) (amount : Nat) :
    ThrottledState Req Res :=
  let cid := s.credit_id
  let s1 := { s with
      credit_id := (s.credit_id + 1) % 2 ^ 64
      minted := s.minted ++ [cid] }
  let (s2, rid) := innerSendRequest s1 p (Message.credit Req amount cid)
  { s2 with credit_messages := upd s2.credit_messages p (some ⟨cid, rid, amount⟩) }

/-- `Throttled::can_send(p)`. -/
def canSend (s : ThrottledState Req Res) (p : PeerId) : Bool :=
  match s.peer_info p with
  | some i => decide (i.send_budget > 0)
  | none => true

/-- `Throttled::set_receive_limit(limit)`. -/
def setReceiveLimit (s : ThrottledState Req Res) (limit : Nat) : ThrottledState Req Res :=
  { s with default_limit := Limit.new limit }

/-- `Throttled::override_receive_limit(p, limit)`: update the live (or else
offline) info's `next_max`, then install the override. -/
def overrideReceiveLimit (s : ThrottledState Req Res) (p : PeerId) (limit : Nat) :
    ThrottledState Req Res :=
  let s1 :=
    match s.peer_info p with
    | some info =>
        { s with peer_info := upd s.peer_info p (some { info with limit := info.limit.set limit }) }
    | none =>
        match s.offline_peer_info p with
        | some info =>
            let info' := { info with limit := info.limit.set limit }
            { s with offline_peer_info := upd s.offline_peer_info p (some info') }
        | none => s
  { s1 with limit_overrides := upd s1.limit_overrides p (some (Limit.new limit)) }

/-- `Throttled::remove_override(p)`. -/
def removeOverride (s : ThrottledState Req Res) (p : PeerId) : ThrottledState Req Res :=
  { s with limit_overrides := upd s.limit_overrides p none }

/-- `Throttled::send_request(p, req)`: locate or create the peer's info
(live table, else offline cache — sending a pre-emptive credit grant if the
restored `recv_budget > 1` — else a fresh `PeerInfo` from override/default),
then refuse if `send_budget == 0`, else decrement and submit to inner. -/
def sendRequest (s : ThrottledState Req Res) (p : PeerId) (req : Req) :
    ThrottledState Req Res × Except Req RequestId :=
  let located : ThrottledState Req Res × PeerInfo :=
    match s.peer_info p with
    | some info => (s, info)
    | none =>
        match s.offline_peer_info p with
        | some info =>
            let s1 := { s with offline_peer_info := upd s.offline_peer_info p none }
            let s2 := if info.recv_budget > 1 then sendCredit s1 p (info.recv_budget - 1) else s1
            ({ s2 with peer_info := upd s2.peer_info p (some info) }, info)
        | none =>
            let limit := (s.limit_overrides p).getD s.default_limit
            let info := PeerInfo.new limit
            ({ s with peer_info := upd s.peer_info p (some info) }, info)
  let s1 := located.1
  let info := located.2
  if info.send_budget = 0 then
    (s1, .error req)
  else
    let info' := { info with send_budget := info.send_budget - 1 }
    let s2 := { s1 with peer_info := upd s1.peer_info p (some info') }
    let (s3, rid) := innerSendRequest s2 p (Message.request req)
    (s3, .ok rid)

/-- The `PeerInfo` that `send_request` locates or creates for `p`
(live entry, else offline entry, else a fresh one from override/default). -/
def locatedInfo (s : ThrottledState Req Res) (p : PeerId) : PeerInfo :=
  match s.peer_info p with
  | some info => info
  | none =>
      match s.offline_peer_info p with
      | some info => info
      | none => PeerInfo.new ((s.limit_overrides p).getD s.default_limit)

/-- `Throttled::send_response(ch, res)`: if the peer has a live `PeerInfo`
with `recv_budget == 0`, switch the limit, refill `recv_budget`, and send a
credit grant; then emit the response via inner. -/
def sendResponse (s : ThrottledState Req Res) (ch : RespChannel) (res : Res) :
    ThrottledState Req Res :=
  let s1 :=
    match s.peer_info ch.peer with
    | some info =>
        if info.recv_budget = 0 then
          let (crd, limit') := info.limit.switch
          let info' := { info with limit := limit', recv_budget := limit'.max_recv }
          let s' := { s with peer_info := upd s.peer_info ch.peer (some info') }
          sendCredit s' ch.peer crd
        else s
    | none => s
  innerSendResponse s1 ch (Message.response res)

/-- `inject_connected(p)`: if no live info, move in from the offline cache
(granting `recv_budget - 1` if it exceeds 1) or synthesise from
override/default. -/
def injectConnected (s : ThrottledState Req Res) (p : PeerId) : ThrottledState Req Res :=
  if (s.peer_info p).isSome then s
  else
    match s.offline_peer_info p with
    | some info =>
        let s1 := { s with offline_peer_info := upd s.offline_peer_info p none }
        let s2 := if info.recv_budget > 1 then sendCredit s1 p (info.recv_budget - 1) else s1
        { s2 with peer_info := upd s2.peer_info p (some info) }
    | none =>
        let limit := (s.limit_overrides p).getD s.default_limit
        { s with peer_info := upd s.peer_info p (some (PeerInfo.new limit)) }

/-- `inject_disconnected(p)`: move the live info to the offline cache with
`send_budget = 1` and `recv_budget = max(1, recv_budget)`; drop any
in-flight credit record. -/
def injectDisconnected (s : ThrottledState Req Res) (p : PeerId) : ThrottledState Req Res :=
  let s1 :=
    match s.peer_info p with
    | some info =>
        let info' := { info with send_budget := 1, recv_budget := max 1 info.recv_budget }
        { s with
            peer_info := upd s.peer_info p none
            offline_peer_info := upd s.offline_peer_info p (some info') }
    | none => s
  { s1 with credit_messages := upd s1.credit_messages p none }

/-- Rust's `Option<u64>` order on `info.send_budget_id < Some(id)`:
`None` is smaller than every `Some`, and `Some a < Some b ↔ a < b`. -/
def optLtSome (o : Option Nat) (n : Nat) : Bool :=
  match o with
  | none => true
  | some m => decide (m < n)

/-- An event produced by polling the inner behaviour, as classified by
`Throttled::poll`. -/
inductive InnerEv (Req Res : Type) where
  | message_response (peer : PeerId) (request_id : RequestId) (response : Message Res)
  | message_request (peer : PeerId) (request_id : RequestId) (request : Message Req)
      (chan : RespChannel)
  | outboundFailure (peer : PeerId) (request_id : RequestId) (error : Nat)
  | inboundFailure (peer : PeerId) (request_id : RequestId) (error : Nat)
deriving DecidableEq, Repr

/-- One iteration of the match in `Throttled::poll` on an event produced by
the inner behaviour.  Returns the new state and the event surfaced to the
host for this inner event (`none` models `continue`: nothing surfaced). -/
def handleInner (s : ThrottledState Req Res) (ev : InnerEv Req Res) :
    ThrottledState Req Res × Option (TEvent Req Res) :=
  match ev with
  | .message_response peer request_id response =>
      match response.header.typ with
      | some .ack =>
          match s.credit_messages peer with
          | some c =>
              if some c.id = response.header.ident then
                ({ s with credit_messages := upd s.credit_messages peer none }, none)
              else (s, none)
          | none => (s, none)
      | some .response =>
          match response.data with
          | some rs => (s, some (.msgResponse peer request_id rs))
          | none => (s, none)
      | _ => (s, none)
  | .message_request peer request_id request chan =>
      match request.header.typ with
      | some .credit =>
          match s.peer_info peer with
          | some info =>
              match request.header.ident with
              | none => (s, none)
              | some id =>
                  let credit := request.header.credit.getD 0
                  let s1 :=
                    if optLtSome info.send_budget_id id then
                      let sEv :=
                        if info.send_budget = 0 ∧ 0 < credit then
                          { s with events := s.events ++ [.resumeSending peer] }
                        else s
                      let info' := { info with
                          send_budget := (info.send_budget + credit) % 2 ^ 16
                          send_budget_id := some id }
                      { sEv with peer_info := upd sEv.peer_info peer (some info') }
                    else s
                  (innerSendResponse s1 chan (Message.ack Res id), none)
          | none => (s, none)
      | some .request =>
          match s.peer_info peer with
          | some info =>
              if info.recv_budget = 0 then
                ({ s with events := s.events ++ [.tooManyInboundRequests peer] }, none)
              else
                let info' := { info with recv_budget := info.recv_budget - 1 }
                let s1 := { s with
                    peer_info := upd s.peer_info peer (some info')
                    credit_messages := upd s.credit_messages peer none }
                match request.data with
                | some rq => (s1, some (.msgRequest peer request_id rq chan))
                | none => (s1, none)
          | none =>
              match request.data with
              | some rq => (s, some (.msgRequest peer request_id rq chan))
              | none => (s, none)
      | _ => (s, none)
  | .outboundFailure peer request_id error =>
      let s1 :=
        match s.credit_messages peer with
        | some credit =>
            if credit.request = request_id then
              let (s', rid) := innerSendRequest s peer (Message.credit Req credit.amount credit.id)
              let cm := upd s'.credit_messages peer (some { credit with request := rid })
              { s' with credit_messages := cm }
            else s
        | none => s
      (s1, some (.outboundFailure peer request_id error))
  | .inboundFailure peer request_id error =>
      (s, some (.inboundFailure peer request_id error))

/-- `inject_connection_closed(p, ..)`: if still connected (`stillConnected`
models `self.is_connected(peer)`, inner state) and a credit grant is in
flight, resend it with the same id and update its request id. -/
def injectConnectionClosed (s : ThrottledState Req Res) (p : PeerId)
    (stillConnected : Bool) : ThrottledState Req Res :=
  if stillConnected then
    match s.credit_messages p with
    | some credit =>
        let (s1, rid) := innerSendRequest s p (Message.credit Req credit.amount credit.id)
        { s1 with credit_messages := upd s1.credit_messages p (some { credit with request := rid }) }
    | none => s
  else s

/-- One operation on a `Throttled` instance: the full mutating API surface
(`can_send` and the address/identity passthroughs do not touch state). -/
inductive Op (Req Res : Type) where
  | sendRequest (p : PeerId) (req : Req)
  | sendResponse (ch : RespChannel) (res : Res)
  | setReceiveLimit (limit : Nat)
  | overrideReceiveLimit (p : PeerId) (limit : Nat)
  | removeOverride (p : PeerId)
  | injectConnected (p : PeerId)
  | injectDisconnected (p : PeerId)
  | injectConnectionClosed (p : PeerId) (stillConnected : Bool)
  | handleInner (ev : InnerEv Req Res)

/-- Apply one operation to the state. -/
def applyOp (s : ThrottledState Req Res) : Op Req Res → ThrottledState Req Res
  | .sendRequest p req => (sendRequest s p req).1
  | .sendResponse ch res => sendResponse s ch res
  | .setReceiveLimit l => setReceiveLimit s l
  | .overrideReceiveLimit p l => overrideReceiveLimit s p l
  | .removeOverride p => removeOverride s p
  | .injectConnected p => injectConnected s p
  | .injectDisconnected p => injectDisconnected s p
  | .injectConnectionClosed p b => injectConnectionClosed s p b
  | .handleInner ev => (handleInner s ev).1

/-- Apply a sequence of operations to the state. -/
def applyOps (s : ThrottledState Req Res) : List (Op Req Res) → ThrottledState Req Res
  | [] => s
  | op :: ops => applyOps (applyOp s op) ops

/-- Every single operation either leaves `credit_id` and the minted-id log
unchanged, or mints exactly one id: the current `credit_id`, which is
appended to `minted` while `credit_id` advances by one (u64, wrapping). -/
theorem applyOp_mint (s : ThrottledState Req Res) (op : Op Req Res) :
    ((applyOp s op).minted = s.minted ∧ (applyOp s op).credit_id = s.credit_id) ∨
    ((applyOp s op).minted = s.minted ++ [s.credit_id] ∧
     (applyOp s op).credit_id = (s.credit_id + 1) % 2 ^ 64) := by
  cases op with
  | sendRequest p req =>
      rcases hpi : s.peer_info p with _ | info
      · rcases hop : s.offline_peer_info p with _ | info
        · simp [applyOp, sendRequest, hpi, hop, PeerInfo.new, innerSendRequest]
        · by_cases hb : 1 < info.recv_budget <;>
            by_cases h0 : info.send_budget = 0 <;>
              simp [applyOp, sendRequest, hpi, hop, hb, h0, sendCredit, innerSendRequest]
      · by_cases h0 : info.send_budget = 0 <;>
          simp [applyOp, sendRequest, hpi, h0, innerSendRequest]
  | sendResponse ch res =>
      rcases hpi : s.peer_info ch.peer with _ | info
      · simp [applyOp, sendResponse, hpi, innerSendResponse]
      · by_cases h0 : info.recv_budget = 0 <;>
          simp [applyOp, sendResponse, hpi, h0, Limit.switch, sendCredit, innerSendRequest,
            innerSendResponse]
  | setReceiveLimit l => exact Or.inl ⟨rfl, rfl⟩
  | overrideReceiveLimit p l =>
      rcases hpi : s.peer_info p with _ | info
      · rcases hop : s.offline_peer_info p with _ | info <;>
          simp [applyOp, overrideReceiveLimit, hpi, hop]
      · simp [applyOp, overrideReceiveLimit, hpi]
  | removeOverride p => exact Or.inl ⟨rfl, rfl⟩
  | injectConnected p =>
      rcases hpi : s.peer_info p with _ | info
      · rcases hop : s.offline_peer_info p with _ | info
        · simp [applyOp, injectConnected, hpi, hop, PeerInfo.new]
        · by_cases hb : 1 < info.recv_budget <;>
            simp [applyOp, injectConnected, hpi, hop, hb, sendCredit, innerSendRequest]
      · simp [applyOp, injectConnected, hpi]
  | injectDisconnected p =>
      rcases hpi : s.peer_info p with _ | info <;>
        simp [applyOp, injectDisconnected, hpi]
  | injectConnectionClosed p b =>
      cases b
      · exact Or.inl ⟨rfl, rfl⟩
      · rcases hc : s.credit_messages p with _ | credit <;>
          simp [applyOp, injectConnectionClosed, hc, innerSendRequest]
  | handleInner ev =>
      cases ev with
      | message_response peer rid response =>
          rcases ht : response.header.typ with _ | ty
          · simp [applyOp, handleInner, ht]
          · cases ty
            · simp [applyOp, handleInner, ht]
            · rcases hd : response.data with _ | rs <;>
                simp [applyOp, handleInner, ht, hd]
            · simp [applyOp, handleInner, ht]
            · rcases hc : s.credit_messages peer with _ | c
              · simp [applyOp, handleInner, ht, hc]
              · by_cases he : some c.id = response.header.ident <;>
                  simp [applyOp, handleInner, ht, hc, he]
      | message_request peer rid request chan =>
          rcases ht : request.header.typ with _ | ty
          · simp [applyOp, handleInner, ht]
          · cases ty
            · rcases hpi : s.peer_info peer with _ | info
              · rcases hd : request.data with _ | rq <;>
                  simp [applyOp, handleInner, ht, hpi, hd]
              · by_cases h0 : info.recv_budget = 0
                · simp [applyOp, handleInner, ht, hpi, h0]
                · rcases hd : request.data with _ | rq <;>
                    simp [applyOp, handleInner, ht, hpi, h0, hd]
            · simp [applyOp, handleInner, ht]
            · rcases hpi : s.peer_info peer with _ | info
              · simp [applyOp, handleInner, ht, hpi]
              · rcases hid : request.header.ident with _ | id
                · simp [applyOp, handleInner, ht, hpi, hid]
                · by_cases hl : optLtSome info.send_budget_id id = true
                  · by_cases hz : info.send_budget = 0 ∧ 0 < request.header.credit.getD 0 <;>
                      simp [applyOp, handleInner, ht, hpi, hid, hl, hz, innerSendResponse]
                  · simp [applyOp, handleInner, ht, hpi, hid, hl, innerSendResponse]
            · simp [applyOp, handleInner, ht]
      | outboundFailure peer rid err =>
          rcases hc : s.credit_messages peer with _ | credit
          · simp [applyOp, handleInner, hc]
          · by_cases hr : credit.request = rid <;>
              simp [applyOp, handleInner, hc, hr, innerSendRequest]
      | inboundFailure peer rid err => exact Or.inl ⟨rfl, rfl⟩

/-- Invariant carried along a trace: the minted ids are exactly
`0, 1, …, n-1` and `credit_id` is `n` modulo `2^64`; as long as fewer than
`2^64` ids remain to be minted, this is preserved by every operation. -/
theorem applyOps_minted_range (ops : List (Op Req Res)) (s : ThrottledState Req Res)
    (n : Nat)
    (h1 : s.minted = List.range n)
    (h2 : s.credit_id = n % 2 ^ 64)
    (h3 : n + ops.length ≤ 2 ^ 64) :
    ∃ m, (applyOps s ops).minted = List.range m := by
  induction ops generalizing s n with
  | nil => exact ⟨n, h1⟩
  | cons op ops ih =>
      rcases applyOp_mint s op with ⟨hm, hc⟩ | ⟨hm, hc⟩
      · refine ih (applyOp s op) n (by rw [hm]; exact h1) (by rw [hc]; exact h2) ?_
        simp only [List.length_cons] at h3
        omega
      · have hlt : n < 2 ^ 64 := by
          simp only [List.length_cons] at h3
          omega
        refine ih (applyOp s op) (n + 1) ?_ ?_ ?_
        · rw [hm, h1, h2, Nat.mod_eq_of_lt hlt, ← List.range_succ]
        · rw [hc, h2, Nat.mod_eq_of_lt hlt]
        · simp only [List.length_cons] at h3
          omega

/-- C7: along every sequence of at most `2^64` operations on a single
`Throttled` instance started from its initial state, the credit ids minted
by `next_credit_id` and carried by the grants of `send_credit` are strictly
monotonically increasing — in particular no id is ever reused. -/
theorem credit_ids_strictly_increasing (ops : List (Op Req Res))
    (hlen : ops.length ≤ 2 ^ 64) :
    ((applyOps (ThrottledState.init Req Res) ops).minted).Pairwise (· < ·) := by
  obtain ⟨m, hm⟩ := applyOps_minted_range ops (ThrottledState.init Req Res) 0 rfl
    (by simp [ThrottledState.init]) (by simpa using hlen)
  rw [hm]
  exact List.pairwise_lt_range m

/-- Witness for C7: a concrete three-operation trace — connect peer 0,
receive one application request (budget 1 → 0), answer it (which mints and
sends a credit grant) — produces the minted-id log `[0]`, strictly
increasing. -/
theorem credit_ids_strictly_increasing_witness :
    (applyOps (ThrottledState.init Nat Nat)
        [.injectConnected 0,
         .handleInner (.message_request 0 0 (Message.request 5) ⟨0, 0⟩),
         .sendResponse ⟨0, 0⟩ 7]).minted = [0] ∧
    ((applyOps (ThrottledState.init Nat Nat)
        [.injectConnected 0,
         .handleInner (.message_request 0 0 (Message.request 5) ⟨0, 0⟩),
         .sendResponse ⟨0, 0⟩ 7]).minted).Pairwise (· < ·) :=
  ⟨rfl,
   credit_ids_strictly_increasing
     [.injectConnected 0,
      .handleInner (.message_request 0 0 (Message.request 5) ⟨0, 0⟩),
      .sendResponse ⟨0, 0⟩ 7]
     (by decide)⟩

/-! ### Theorems -/

/-- C1: for an inbound Credit message (header type Credit, ident `id`)
processed in `poll` for a peer with a live `PeerInfo`, `send_budget` is
increased by the credit amount (u16 addition) and `send_budget_id` is set to
`id` iff `id` is strictly greater than the stored `send_budget_id` (with
`None` smaller than every ident); otherwise both fields — indeed the whole
`PeerInfo` — are left unchanged. -/
theorem credit_update_iff_fresh (s : ThrottledState Req Res) (peer : PeerId)
    (request_id : RequestId) (msg : Message Req) (chan : RespChannel)
    (info : PeerInfo) (id : Nat)
    (hinfo : s.peer_info peer = some info)
    (htyp : msg.header.typ = some .credit)
    (hid : msg.header.ident = some id) :
    ((handleInner s (.message_request peer request_id msg chan)).1.peer_info peer =
      if optLtSome info.send_budget_id id then
        some { info with
            send_budget := (info.send_budget + msg.header.credit.getD 0) % 2 ^ 16
            send_budget_id := some id }
      else some info) := by
  simp only [handleInner, htyp, hinfo, hid, innerSendResponse]
  by_cases h : optLtSome info.send_budget_id id = true
  · simp only [h, if_pos, if_true]
    split
    · simp [upd]
    · simp [upd]
  · simp only [h, if_neg, if_false, Bool.not_eq_true] at *
    simp [h, hinfo]

/-- Witness for C1 at a concrete fresh credit: peer 0 has
`send_budget = 0`, `send_budget_id = none`; a Credit with ident 5 and
amount 3 raises the budget to 3 and stores ident 5. -/
theorem credit_update_iff_fresh_witness :
    ((handleInner
        { ThrottledState.init Nat Nat with
            peer_info := upd (fun _ => none) 0
              (some { limit := Limit.new 4, send_budget := 0, recv_budget := 1,
                      send_budget_id := none }) }
        (.message_request 0 7 (Message.credit Nat 3 5) ⟨0, 7⟩)).1.peer_info 0 =
      if optLtSome (none : Option Nat) 5 then
        some { limit := Limit.new 4, send_budget := (0 + 3) % 2 ^ 16, recv_budget := 1,
               send_budget_id := some 5 }
      else some { limit := Limit.new 4, send_budget := 0, recv_budget := 1,
                  send_budget_id := none }) :=
  credit_update_iff_fresh _ 0 7 (Message.credit Nat 3 5) ⟨0, 7⟩ _ 5 rfl rfl rfl

/-- A sample state whose live peer table holds exactly peer 0. -/
def withPeer0 (info : PeerInfo) : ThrottledState Nat Nat :=
  { ThrottledState.init Nat Nat with peer_info := upd (fun _ => none) 0 (some info) }

/-- C2 counterexample: a Credit message (type Credit, ident 9) from a peer
with no live `PeerInfo` is not answered with an Ack — nothing is submitted
to the inner behaviour at all (and no event is surfaced), refuting the
claim that every identified Credit is acknowledged. -/
theorem credit_ack_counterexample :
    (Message.credit Nat 2 9).header.typ = some MsgType.credit ∧
    (Message.credit Nat 2 9).header.ident = some 9 ∧
    (ThrottledState.init Nat Nat).peer_info 0 = none ∧
    (handleInner (ThrottledState.init Nat Nat)
        (.message_request 0 1 (Message.credit Nat 2 9) ⟨0, 1⟩)).1.inner_log = [] ∧
    (handleInner (ThrottledState.init Nat Nat)
        (.message_request 0 1 (Message.credit Nat 2 9) ⟨0, 1⟩)).2 = none :=
  ⟨rfl, rfl, rfl, rfl, rfl⟩

/-- C2 amended: for an inbound message of header type Credit, no event is
surfaced to the host; and whenever the peer has a live `PeerInfo` and the
header carries an ident `id`, the engine replies on the message's channel
with `Ack{ident: id}` (fresh or stale alike). -/
theorem credit_acked_when_live (s : ThrottledState Req Res) (peer : PeerId)
    (request_id : RequestId) (msg : Message Req) (chan : RespChannel)
    (htyp : msg.header.typ = some .credit) :
    (handleInner s (.message_request peer request_id msg chan)).2 = none ∧
    (∀ info id, s.peer_info peer = some info → msg.header.ident = some id →
      (handleInner s (.message_request peer request_id msg chan)).1.inner_log =
        s.inner_log ++ [.response chan (Message.ack Res id)]) := by
  constructor
  · rcases hpi : s.peer_info peer with _ | info
    · simp [handleInner, htyp, hpi]
    · rcases hident : msg.header.ident with _ | id
      · simp [handleInner, htyp, hpi, hident]
      · simp [handleInner, htyp, hpi, hident, innerSendResponse]
  · intro info id hinfo hid
    simp only [handleInner, htyp, hinfo, hid, innerSendResponse]
    split
    · split <;> rfl
    · rfl

/-- Witness for C2 amended: with a live `PeerInfo` for peer 0, a Credit
with ident 9 is answered with `Ack{ident: 9}` on the channel and no event
is surfaced. -/
theorem credit_acked_when_live_witness :
    (handleInner (withPeer0 (PeerInfo.new (Limit.new 4)))
        (.message_request 0 1 (Message.credit Nat 2 9) ⟨0, 1⟩)).2 = none ∧
    (handleInner (withPeer0 (PeerInfo.new (Limit.new 4)))
        (.message_request 0 1 (Message.credit Nat 2 9) ⟨0, 1⟩)).1.inner_log =
      [.response ⟨0, 1⟩ (Message.ack Nat 9)] :=
  ⟨(credit_acked_when_live _ 0 1 (Message.credit Nat 2 9) ⟨0, 1⟩ rfl).1,
   (credit_acked_when_live _ 0 1 (Message.credit Nat 2 9) ⟨0, 1⟩ rfl).2
      (PeerInfo.new (Limit.new 4)) 9 rfl rfl⟩

/-- C3: if the `PeerInfo` that `send_request` locates or creates for `p`
has `send_budget = 0`, the call returns `Err` with the original request and
leaves the state — in particular `send_budget` and the inner log — entirely
unchanged.  The hypothesis `hoff` records the invariant established by
`inject_disconnected` (the only writer of the offline cache): offline
entries always carry a positive `send_budget`. -/
theorem send_request_refused_when_no_budget (s : ThrottledState Req Res)
    (p : PeerId) (req : Req)
    (hoff : ∀ info, s.offline_peer_info p = some info → info.send_budget ≠ 0)
    (hbud : (locatedInfo s p).send_budget = 0) :
    sendRequest s p req = (s, Except.error req) := by
  rcases hpi : s.peer_info p with _ | info
  · rcases hop : s.offline_peer_info p with _ | info
    · have h1 : (locatedInfo s p).send_budget = 1 := by
        simp [locatedInfo, hpi, hop, PeerInfo.new]
      omega
    · have h0 : info.send_budget = 0 := by simpa [locatedInfo, hpi, hop] using hbud
      exact absurd h0 (hoff info hop)
  · have h0 : info.send_budget = 0 := by simpa [locatedInfo, hpi] using hbud
    simp [sendRequest, hpi, h0]

/-- Witness for C3: peer 0 is live with `send_budget = 0`; `send_request`
returns the request unchanged and leaves the state as it was. -/
theorem send_request_refused_when_no_budget_witness :
    sendRequest (withPeer0 { limit := Limit.new 4, send_budget := 0, recv_budget := 2,
                             send_budget_id := none }) 0 42 =
      (withPeer0 { limit := Limit.new 4, send_budget := 0, recv_budget := 2,
                   send_budget_id := none }, Except.error 42) :=
  send_request_refused_when_no_budget _ 0 42 (fun _ h => nomatch h) rfl

/-- C4: for an inbound application Request from a peer with a live
`PeerInfo`: when `recv_budget = 0` the request is dropped (nothing is sent
via inner, nothing surfaced), `TooManyInboundRequests(peer)` is enqueued
and the `PeerInfo` (so `recv_budget = 0`) is unchanged; otherwise
`recv_budget` is decremented by exactly one and the in-flight credit record
for that peer is removed. -/
theorem inbound_request_budget (s : ThrottledState Req Res) (peer : PeerId)
    (request_id : RequestId) (msg : Message Req) (chan : RespChannel)
    (info : PeerInfo)
    (hinfo : s.peer_info peer = some info)
    (htyp : msg.header.typ = some .request) :
    (info.recv_budget = 0 →
      (handleInner s (.message_request peer request_id msg chan)).1.peer_info peer = some info ∧
      (handleInner s (.message_request peer request_id msg chan)).1.events =
        s.events ++ [.tooManyInboundRequests peer] ∧
      (handleInner s (.message_request peer request_id msg chan)).1.inner_log = s.inner_log ∧
      (handleInner s (.message_request peer request_id msg chan)).2 = none) ∧
    (info.recv_budget ≠ 0 →
      (handleInner s (.message_request peer request_id msg chan)).1.peer_info peer =
        some { info with recv_budget := info.recv_budget - 1 } ∧
      (handleInner s (.message_request peer request_id msg chan)).1.credit_messages peer =
        none) := by
  constructor
  · intro h
    simp [handleInner, htyp, hinfo, h]
  · intro h
    rcases hd : msg.data with _ | rq <;>
      simp [handleInner, htyp, hinfo, h, hd, upd]

/-- Witness for C4 at `recv_budget = 0`: the request from peer 0 is dropped,
`TooManyInboundRequests 0` is enqueued, nothing reaches inner and no event
is surfaced. -/
theorem inbound_request_budget_witness :
    (handleInner (withPeer0 { limit := Limit.new 4, send_budget := 1, recv_budget := 0,
                              send_budget_id := none })
        (.message_request 0 1 (Message.request (5 : Nat)) ⟨0, 1⟩)).1.peer_info 0 =
      some { limit := Limit.new 4, send_budget := 1, recv_budget := 0,
             send_budget_id := none } ∧
    (handleInner (withPeer0 { limit := Limit.new 4, send_budget := 1, recv_budget := 0,
                              send_budget_id := none })
        (.message_request 0 1 (Message.request (5 : Nat)) ⟨0, 1⟩)).1.events =
      [.tooManyInboundRequests 0] ∧
    (handleInner (withPeer0 { limit := Limit.new 4, send_budget := 1, recv_budget := 0,
                              send_budget_id := none })
        (.message_request 0 1 (Message.request (5 : Nat)) ⟨0, 1⟩)).1.inner_log = [] ∧
    (handleInner (withPeer0 { limit := Limit.new 4, send_budget := 1, recv_budget := 0,
                              send_budget_id := none })
        (.message_request 0 1 (Message.request (5 : Nat)) ⟨0, 1⟩)).2 = none :=
  (inbound_request_budget _ 0 1 (Message.request 5) ⟨0, 1⟩ _ rfl rfl).1 rfl

/-- C5: `send_response` with a live `PeerInfo` at `recv_budget = 0`
switches the limit (`max_recv` becomes `next_max`), sets `recv_budget` to
the capacity `crd` returned by `switch`, and dispatches a Credit grant of
amount `crd` to the peer before emitting the response via inner; with
`recv_budget > 0` or no live `PeerInfo`, only the response is emitted and
the rest of the state is untouched. -/
theorem send_response_replenishes (s : ThrottledState Req Res)
    (ch : RespChannel) (res : Res) :
    (∀ info, s.peer_info ch.peer = some info → info.recv_budget = 0 →
      (sendResponse s ch res).peer_info ch.peer =
        some { info with
            limit := { info.limit with max_recv := info.limit.next_max }
            recv_budget := info.limit.next_max } ∧
      (sendResponse s ch res).inner_log =
        s.inner_log ++
          [.request ch.peer s.next_request_id
              (Message.credit Req info.limit.next_max s.credit_id),
           .response ch (Message.response res)]) ∧
    (∀ info, s.peer_info ch.peer = some info → info.recv_budget ≠ 0 →
      sendResponse s ch res =
        { s with inner_log := s.inner_log ++ [.response ch (Message.response res)] }) ∧
    (s.peer_info ch.peer = none →
      sendResponse s ch res =
        { s with inner_log := s.inner_log ++ [.response ch (Message.response res)] }) := by
  refine ⟨?_, ?_, ?_⟩
  · intro info hinfo h0
    constructor
    · simp [sendResponse, hinfo, h0, Limit.switch, sendCredit, innerSendRequest,
        innerSendResponse, upd]
    · simp [sendResponse, hinfo, h0, Limit.switch, sendCredit, innerSendRequest,
        innerSendResponse]
  · intro info hinfo h0
    simp [sendResponse, hinfo, h0, innerSendResponse]
  · intro h
    simp [sendResponse, h, innerSendResponse]

/-- Witness for C5: peer 0 live with `recv_budget = 0` and limit
`{max_recv 1, next_max 4}`: the limit switches to 4, `recv_budget` becomes
4, and a Credit of amount 4 precedes the response in the inner log. -/
theorem send_response_replenishes_witness :
    (sendResponse (withPeer0 { limit := Limit.new 4, send_budget := 1, recv_budget := 0,
                               send_budget_id := none }) ⟨0, 3⟩ (9 : Nat)).peer_info 0 =
      some { limit := { max_recv := 4, next_max := 4 }, send_budget := 1, recv_budget := 4,
             send_budget_id := none } ∧
    (sendResponse (withPeer0 { limit := Limit.new 4, send_budget := 1, recv_budget := 0,
                               send_budget_id := none }) ⟨0, 3⟩ (9 : Nat)).inner_log =
      [.request 0 0 (Message.credit Nat 4 0), .response ⟨0, 3⟩ (Message.response 9)] :=
  (send_response_replenishes _ ⟨0, 3⟩ 9).1
    { limit := Limit.new 4, send_budget := 1, recv_budget := 0, send_budget_id := none }
    rfl rfl

/-- C6: when a `PeerInfo` with `recv_budget > 1` is restored from the
offline cache (by `inject_connected`, or by `send_request` for that peer),
a Credit grant of amount `recv_budget - 1` is sent immediately, and the
restored `recv_budget` itself is unchanged (for `inject_connected` the
whole restored record is unchanged; `send_request` may then decrement
`send_budget`, but `recv_budget` is untouched). -/
theorem offline_restore_sends_credit (s : ThrottledState Req Res) (p : PeerId)
    (info : PeerInfo) (req : Req)
    (hlive : s.peer_info p = none)
    (hoff : s.offline_peer_info p = some info)
    (hbud : 1 < info.recv_budget) :
    ((injectConnected s p).peer_info p = some info ∧
     (injectConnected s p).inner_log =
       s.inner_log ++ [.request p s.next_request_id
         (Message.credit Req (info.recv_budget - 1) s.credit_id)]) ∧
    (((sendRequest s p req).1.peer_info p).map PeerInfo.recv_budget =
       some info.recv_budget ∧
     ∃ rest, (sendRequest s p req).1.inner_log =
       s.inner_log ++ [.request p s.next_request_id
         (Message.credit Req (info.recv_budget - 1) s.credit_id)] ++ rest) := by
  constructor
  · constructor
    · simp [injectConnected, hlive, hoff, hbud, sendCredit, innerSendRequest, upd]
    · simp [injectConnected, hlive, hoff, hbud, sendCredit, innerSendRequest]
  · by_cases h0 : info.send_budget = 0
    · constructor
      · simp [sendRequest, hlive, hoff, hbud, h0, sendCredit, innerSendRequest, upd]
      · refine ⟨[], ?_⟩
        simp [sendRequest, hlive, hoff, hbud, h0, sendCredit, innerSendRequest]
    · constructor
      · simp [sendRequest, hlive, hoff, hbud, h0, sendCredit, innerSendRequest, upd]
      · refine ⟨[.request p (s.next_request_id + 1) (Message.request req)], ?_⟩
        simp [sendRequest, hlive, hoff, hbud, h0, sendCredit, innerSendRequest, upd]

/-- Witness for C6: peer 0 sits in the offline cache with
`recv_budget = 3`; restoring it (via either path) sends a Credit of
amount 2 and keeps `recv_budget = 3`. -/
theorem offline_restore_sends_credit_witness :
    ((injectConnected
        { ThrottledState.init Nat Nat with
            offline_peer_info := upd (fun _ => none) 0
              (some { limit := Limit.new 4, send_budget := 1, recv_budget := 3,
                      send_budget_id := none }) } 0).peer_info 0 =
      some { limit := Limit.new 4, send_budget := 1, recv_budget := 3,
             send_budget_id := none } ∧
     (injectConnected
        { ThrottledState.init Nat Nat with
            offline_peer_info := upd (fun _ => none) 0
              (some { limit := Limit.new 4, send_budget := 1, recv_budget := 3,
                      send_budget_id := none }) } 0).inner_log =
       [.request 0 0 (Message.credit Nat 2 0)]) ∧
    (((sendRequest
        { ThrottledState.init Nat Nat with
            offline_peer_info := upd (fun _ => none) 0
              (some { limit := Limit.new 4, send_budget := 1, recv_budget := 3,
                      send_budget_id := none }) } 0 42).1.peer_info 0).map
        PeerInfo.recv_budget = some 3 ∧
     ∃ rest, (sendRequest
        { ThrottledState.init Nat Nat with
            offline_peer_info := upd (fun _ => none) 0
              (some { limit := Limit.new 4, send_budget := 1, recv_budget := 3,
                      send_budget_id := none }) } 0 42).1.inner_log =
       [InnerOut.request 0 0 (Message.credit Nat 2 0)] ++ rest) :=
  offline_restore_sends_credit _ 0
    { limit := Limit.new 4, send_budget := 1, recv_budget := 3, send_budget_id := none }
    42 rfl rfl (by decide)

/-- C8: `inject_disconnected(p)` for a peer with a live `PeerInfo` removes
it from the live table and inserts it into the offline cache with
`send_budget = 1`, `recv_budget = max 1 recv_budget` and the limit
retained, and removes any in-flight credit record for that peer. -/
theorem inject_disconnected_moves_offline (s : ThrottledState Req Res) (p : PeerId)
    (info : PeerInfo) (hinfo : s.peer_info p = some info) :
    (injectDisconnected s p).peer_info p = none ∧
    (injectDisconnected s p).offline_peer_info p =
      some { info with send_budget := 1, recv_budget := max 1 info.recv_budget } ∧
    (injectDisconnected s p).credit_messages p = none := by
  refine ⟨?_, ?_, ?_⟩ <;> simp [injectDisconnected, hinfo, upd]

/-- Witness for C8: disconnecting live peer 0 (budgets 0/3, one in-flight
credit record) moves it offline with `send_budget = 1`, `recv_budget = 3`,
same limit, and clears the credit record. -/
theorem inject_disconnected_moves_offline_witness :
    (injectDisconnected
        { withPeer0 { limit := Limit.new 4, send_budget := 0, recv_budget := 3,
                      send_budget_id := some 2 } with
            credit_messages := upd (fun _ => none) 0 (some ⟨5, 1, 2⟩) } 0).peer_info 0 =
      none ∧
    (injectDisconnected
        { withPeer0 { limit := Limit.new 4, send_budget := 0, recv_budget := 3,
                      send_budget_id := some 2 } with
            credit_messages := upd (fun _ => none) 0 (some ⟨5, 1, 2⟩) } 0).offline_peer_info 0 =
      some { limit := Limit.new 4, send_budget := 1, recv_budget := 3,
             send_budget_id := some 2 } ∧
    (injectDisconnected
        { withPeer0 { limit := Limit.new 4, send_budget := 0, recv_budget := 3,
                      send_budget_id := some 2 } with
            credit_messages := upd (fun _ => none) 0 (some ⟨5, 1, 2⟩) } 0).credit_messages 0 =
      none :=
  inject_disconnected_moves_offline _ 0
    { limit := Limit.new 4, send_budget := 0, recv_budget := 3, send_budget_id := some 2 } rfl

/-- C9: `can_send(p)` is `true` for every peer without a live `PeerInfo`
(unknown peers and offline-cached peers alike), and for a live peer it is
`true` exactly when `send_budget > 0`. -/
theorem can_send_spec (s : ThrottledState Req Res) (p : PeerId) :
    (s.peer_info p = none → canSend s p = true) ∧
    (∀ info, s.peer_info p = some info → (canSend s p = true ↔ 0 < info.send_budget)) := by
  constructor
  · intro h
    simp [canSend, h]
  · intro info h
    simp [canSend, h]

/-- Witness for C9: an offline-cached peer (no live entry) can send; a live
peer with `send_budget = 0` cannot. -/
theorem can_send_spec_witness :
    canSend
      { ThrottledState.init Nat Nat with
          offline_peer_info := upd (fun _ => none) 0 (some (PeerInfo.new (Limit.new 4))) }
      0 = true ∧
    (canSend (withPeer0 { limit := Limit.new 4, send_budget := 0, recv_budget := 1,
                          send_budget_id := none }) 0 = true ↔
      (0 : Nat) < 0) :=
  ⟨(can_send_spec _ 0).1 rfl,
   (can_send_spec _ 0).2
     { limit := Limit.new 4, send_budget := 0, recv_budget := 1, send_budget_id := none }
     rfl⟩

/-- C10: `remove_override(p)` deletes only the override-map entry of `p`:
the live table and the offline cache are untouched (all limits and budgets
included), other peers' overrides are untouched, and in particular a limit
just applied to a known peer by `override_receive_limit` stays in effect
after the override is removed. -/
theorem remove_override_frame (s : ThrottledState Req Res) (p : PeerId) :
    (removeOverride s p).peer_info = s.peer_info ∧
    (removeOverride s p).offline_peer_info = s.offline_peer_info ∧
    (removeOverride s p).limit_overrides p = none ∧
    (∀ q, q ≠ p → (removeOverride s p).limit_overrides q = s.limit_overrides q) ∧
    (∀ n, (removeOverride (overrideReceiveLimit s p n) p).peer_info =
            (overrideReceiveLimit s p n).peer_info ∧
          (removeOverride (overrideReceiveLimit s p n) p).offline_peer_info =
            (overrideReceiveLimit s p n).offline_peer_info) := by
  refine ⟨rfl, rfl, by simp [removeOverride, upd], ?_, fun n => ⟨rfl, rfl⟩⟩
  intro q hq
  simp [removeOverride, upd, hq]

/-- Witness for C10: with an override installed for live peer 0 (raising
`next_max` to 7), removing the override clears only the override entry;
peer 0's `PeerInfo` — `next_max` 7 included — and peer 1's override are
intact. -/
theorem remove_override_frame_witness :
    (removeOverride (overrideReceiveLimit (withPeer0 (PeerInfo.new (Limit.new 4))) 0 7)
        0).peer_info 0 =
      some { limit := { max_recv := 1, next_max := 7 }, send_budget := 1, recv_budget := 1,
             send_budget_id := none } ∧
    (removeOverride (overrideReceiveLimit (withPeer0 (PeerInfo.new (Limit.new 4))) 0 7)
        0).limit_overrides 0 = none ∧
    (removeOverride (overrideReceiveLimit (withPeer0 (PeerInfo.new (Limit.new 4))) 0 7)
        0).limit_overrides 1 =
      (overrideReceiveLimit (withPeer0 (PeerInfo.new (Limit.new 4))) 0 7).limit_overrides 1 :=
  ⟨by
    have h := (remove_override_frame (overrideReceiveLimit
      (withPeer0 (PeerInfo.new (Limit.new 4))) 0 7) 0).1
    rw [h]
    rfl,
   (remove_override_frame (overrideReceiveLimit
      (withPeer0 (PeerInfo.new (Limit.new 4))) 0 7) 0).2.2.1,
   (remove_override_frame (overrideReceiveLimit
      (withPeer0 (PeerInfo.new (Limit.new 4))) 0 7) 0).2.2.2.1 1 (by decide)⟩

end Throttle
